import Mathlib

/-!
Verification of the forecasting pipeline in `modeler/model_train.py` of the
disease-surveillance-kenya repository.

The numeric core is embedded over `ℚ` (the Python code computes with floats;
the embedding idealises float arithmetic as exact rational arithmetic, with
`round` modelled as round-half-to-even, the rounding mode used by
`numpy.float64.__round__`).  The numpy random stream `rng.normal` is modelled
by an abstract stream `z : ℕ → ℚ` of standard-normal draws: the code's
`rng.normal(0, sigma)` equals `sigma * z k` for the `k`-th draw of the
generator, and one draw is consumed per year per entity, sequentially across
the batch.  External collaborators (Postgres, statsmodels) are modelled by
their visible contracts: the series store is a list of rows, and the
statsmodels fit call is an abstract function that either returns forecast and
fitted values or fails with an error message.
-/

/-- Round half to even, the rounding of `round()` applied to a numpy float64
(as in `int(round(v * scale))` in `build_synthetic_if_empty`). -/
def roundHalfEven (q : ℚ) : ℤ :=
  let f := ⌊q⌋
  let r := q - f
  if r < 1/2 then f
  else if 1/2 < r then f + 1
  else if f % 2 = 0 then f else f + 1

/-- `yearly[-1] += d`: add `d` to the last element of a list (no-op on `[]`,
where the Python code would raise). -/
def addToLast : List ℤ → ℤ → List ℤ
  | [], _ => []
  | [x], d => [x + d]
  | x :: y :: t, d => x :: addToLast (y :: t) d

/-- `base = total_cases / len(YEARS)` (line 80). -/
def baseOf (total n : ℕ) : ℚ := (total : ℚ) / (n : ℚ)

/-- `slope = (0.15 if total_cases > 10000 else 0.05) * base / len(YEARS)`
(line 81). -/
def slopeOf (total n : ℕ) : ℚ :=
  (if 10000 < total then (15 : ℚ)/100 else (5 : ℚ)/100) * baseOf total n / (n : ℚ)

/-- The provisional series of line 86-88:
`val = max(0.0, base + slope * i + rng.normal(0, base * 0.1))` for each year
index `i`, where the `i`-th normal draw is `base * 0.1 * z i`. -/
def provisionalVals (z : ℕ → ℚ) (total n : ℕ) : List ℚ :=
  (List.range n).map
    (fun i : ℕ =>
      max 0 (baseOf total n + slopeOf total n * (i : ℚ) + baseOf total n * (1/10) * z i))

/-- `scale = total_cases / max(1e-9, sum(yearly))` (line 89). -/
def scaleOf (z : ℕ → ℚ) (total n : ℕ) : ℚ :=
  (total : ℚ) / max (1/10^9) (provisionalVals z total n).sum

/-- `yearly = [max(0, int(round(v * scale))) for v in yearly]` (line 90). -/
def scaledInts (z : ℕ → ℚ) (total n : ℕ) : List ℤ :=
  (provisionalVals z total n).map (fun v => max 0 (roundHalfEven (v * scaleOf z total n)))

/-- One entity's synthetic series (lines 80-95 of
`build_synthetic_if_empty`): provisional trend-plus-noise values, rescaled and
rounded to integers, then the rounding drift `diff = total - sum` added
entirely to the last year.  Only `years.length` matters for the values; the
code uses the fixed window `YEARS`, while the spec's synthesizer contract
admits any non-empty contiguous year range. -/
def synthesizeOne (z : ℕ → ℚ) (total : ℕ) (years : List ℤ) : List ℤ :=
  if (total : ℤ) - (scaledInts z total years.length).sum = 0 then
    scaledInts z total years.length
  else
    addToLast (scaledInts z total years.length)
      ((total : ℤ) - (scaledInts z total years.length).sum)

/-- The fixed historical window `YEARS = list(range(2007, 2023))` (line 15). -/
def YEARS : List ℤ := (List.range 16).map (fun i => 2007 + (i : ℤ))

/-- `FORECAST_HORIZON = 3` (line 16). -/
def FORECAST_HORIZON : ℕ := 3

theorem addToLast_sum (l : List ℤ) (d : ℤ) (h : l ≠ []) :
    (addToLast l d).sum = l.sum + d := by
  induction l with
  | nil => exact absurd rfl h
  | cons x t ih =>
    cases t with
    | nil => simp [addToLast]
    | cons y u =>
      have hs := ih (by simp)
      simp only [addToLast, List.sum_cons] at hs ⊢
      omega

theorem addToLast_dropLast (l : List ℤ) (d : ℤ) :
    (addToLast l d).dropLast = l.dropLast := by
  induction l with
  | nil => rfl
  | cons x t ih =>
    cases t with
    | nil => rfl
    | cons y u =>
      simp only [addToLast]
      rw [List.dropLast_cons_of_ne_nil (by cases u <;> simp [addToLast]),
          List.dropLast_cons_of_ne_nil (by simp)]
      rw [ih]

theorem scaledInts_length (z : ℕ → ℚ) (total n : ℕ) :
    (scaledInts z total n).length = n := by
  unfold scaledInts provisionalVals
  rw [List.length_map, List.length_map, List.length_range]

theorem scaledInts_nonneg (z : ℕ → ℚ) (total n : ℕ) :
    ∀ x ∈ scaledInts z total n, 0 ≤ x := by
  intro x hx
  simp only [scaledInts, List.mem_map] at hx
  obtain ⟨v, _, rfl⟩ := hx
  exact le_max_left 0 _

/-- C1: for every synthesized series (any non-negative total and any
non-empty year range), the per-year values sum exactly to `total_cases`: the
drift correction of lines 93-95 restores the exact total after rounding. -/
theorem synthesizeOne_sum (z : ℕ → ℚ) (total : ℕ) (years : List ℤ)
    (h : years ≠ []) : (synthesizeOne z total years).sum = (total : ℤ) := by
  have hne : scaledInts z total years.length ≠ [] := by
    intro habs
    have := scaledInts_length z total years.length
    rw [habs] at this
    simp at this
    exact h (List.length_eq_zero.mp this.symm)
  unfold synthesizeOne
  split
  · omega
  · rw [addToLast_sum _ _ hne]
    ring

/-- C1 witness: a concrete instantiation (total 7, three years). -/
theorem synthesizeOne_sum_witness :
    ([2007, 2008, 2009] : List ℤ) ≠ [] ∧
      (synthesizeOne (fun _ => 0) 7 [2007, 2008, 2009]).sum = (7 : ℤ) :=
  ⟨by decide, synthesizeOne_sum (fun _ => 0) 7 [2007, 2008, 2009] (by decide)⟩

/-- A noise stream (standard-normal draws) under which the rounding of three
provisional values lands above their exact sum: the drifts accumulate to +1
while the last year rounds to 0. -/
def zDrift : ℕ → ℚ := fun i => [(14 : ℚ)/5, 107/40, 51/20, -351/40].getD i 0

theorem zDrift_eval :
    synthesizeOne zDrift 5 [2007, 2008, 2009, 2010] = [2, 2, 2, -1] := by
  norm_num [synthesizeOne, scaledInts, provisionalVals, scaleOf, baseOf, slopeOf, zDrift,
    roundHalfEven, addToLast, List.range_succ]
  norm_num [Int.fract]

/-- C2 counterexample: with the year range 2007-2010 and `total_cases = 5`,
the noise stream `zDrift` yields provisional values `[1.6, 1.6, 1.6, 0.2]`
(already summing to 5, so `scale = 1`); rounding gives `[2, 2, 2, 0]` with sum
6, and the drift correction makes the last year `-1 < 0`. -/
theorem synthesizeOne_nonneg_cex :
    ¬ (∀ x ∈ synthesizeOne zDrift 5 [2007, 2008, 2009, 2010], (0 : ℤ) ≤ x) := by
  rw [zDrift_eval]
  decide

/-- C2 amended: every per-year value of a synthesized series is ≥ 0 except
possibly the last: the values of line 90 are clamped at 0, but the
rounding-drift correction of lines 93-95 can push the final year below 0 when
the rounding overshoot exceeds the last year's pre-correction value. -/
theorem synthesizeOne_dropLast_nonneg (z : ℕ → ℚ) (total : ℕ) (years : List ℤ) :
    ∀ x ∈ (synthesizeOne z total years).dropLast, 0 ≤ x := by
  intro x hx
  unfold synthesizeOne at hx
  split at hx
  · exact scaledInts_nonneg z total years.length x (List.dropLast_subset _ hx)
  · rw [addToLast_dropLast] at hx
    exact scaledInts_nonneg z total years.length x (List.dropLast_subset _ hx)

/-- C2 amended witness: on the counterexample input itself, the value 2 sits
in the series with the last year dropped, and is indeed non-negative. -/
theorem synthesizeOne_dropLast_nonneg_witness :
    (2 : ℤ) ∈ (synthesizeOne zDrift 5 [2007, 2008, 2009, 2010]).dropLast ∧ (0 : ℤ) ≤ 2 :=
  ⟨by rw [zDrift_eval]; decide,
   synthesizeOne_dropLast_nonneg zDrift 5 [2007, 2008, 2009, 2010] 2
     (by rw [zDrift_eval]; decide)⟩

/-- C5: the synthetic series for an entity depends only on `total_cases`, the
year range and the noise draws it consumes (one per year): two noise streams
agreeing on the first `years.length` draws synthesize identical series, so a
fixed seed makes synthesis reproducible. -/
theorem synthesizeOne_deterministic (z1 z2 : ℕ → ℚ) (total : ℕ) (years : List ℤ)
    (h : ∀ i < years.length, z1 i = z2 i) :
    synthesizeOne z1 total years = synthesizeOne z2 total years := by
  have hp : provisionalVals z1 total years.length = provisionalVals z2 total years.length := by
    unfold provisionalVals
    apply List.map_congr_left
    intro i hi
    rw [h i (List.mem_range.mp hi)]
  unfold synthesizeOne scaledInts scaleOf
  rw [hp]

/-- Two noise streams agreeing on their first three draws but not beyond. -/
def zAgreeA : ℕ → ℚ := fun i => if i < 3 then 1 else 5

/-- Second stream of the pair: same first three draws, different tail. -/
def zAgreeB : ℕ → ℚ := fun i => if i < 3 then 1 else 7

/-- C5 witness: the two streams agree on the draws consumed for a three-year
range, so the synthesized series coincide. -/
theorem synthesizeOne_deterministic_witness :
    (∀ i < ([2007, 2008, 2009] : List ℤ).length, zAgreeA i = zAgreeB i) ∧
      synthesizeOne zAgreeA 4 [2007, 2008, 2009] =
        synthesizeOne zAgreeB 4 [2007, 2008, 2009] :=
  ⟨by decide, synthesizeOne_deterministic zAgreeA zAgreeB 4 [2007, 2008, 2009] (by decide)⟩

/-- Outcome of the external statsmodels call of lines 128-131: on success the
model yields `horizon` forecast values and the in-sample fitted values; any
raised error carries a message. -/
inductive FitResult where
  | ok (forecastVals : List ℚ) (fittedVals : List ℚ)
  | err (msg : String)

/-- Stable insertion step of the sort by year. -/
def insertByYear (p : ℤ × ℚ) : List (ℤ × ℚ) → List (ℤ × ℚ)
  | [] => [p]
  | q :: qs => if q.1 ≤ p.1 then q :: insertByYear p qs else p :: q :: qs

/-- Stable sort by ascending year. -/
def sortByYear : List (ℤ × ℚ) → List (ℤ × ℚ)
  | [] => []
  | p :: ps => insertByYear p (sortByYear ps)

/-- `s = series_df.set_index('year')['cases'].astype(float).sort_index()`
(line 121): cast the case counts to and sort by year. -/
def sortedSeries (series : List (ℤ × ℤ)) : List (ℤ × ℚ) :=
  sortByYear (series.map (fun p => (p.1, (p.2 : ℚ))))

/-- Arithmetic mean, `s.mean()`. -/
def meanQ (l : List ℚ) : ℚ := l.sum / l.length

/-- Sample variance with Bessel's correction; `resid.std(ddof=1)` is its
square root. -/
def sampleVar (l : List ℚ) : ℚ :=
  (l.map (fun x => (x - meanQ l) ^ 2)).sum / ((l.length : ℚ) - 1)

/-- `seriesMean series` is the arithmetic mean of the case counts, the
`float(s.mean())` of lines 124 and 140. -/
def seriesMean (series : List (ℤ × ℤ)) : ℚ :=
  (series.map (fun p => (p.2 : ℚ))).sum / series.length

/-- `fit_and_forecast` (lines 119-141), parametrised by the external
statsmodels fit (`fit`) and by the numeric square root used inside
`resid.std` (`sqrtQ`): if the series has fewer than 4 points or sums to zero,
return the naive mean with a zero-width band; otherwise attempt the fit,
deriving an approximate 95% band from the residual standard deviation, and
fall back to the mean with the error text in the tag if the fit fails. -/
def fit_and_forecast (fit : List (ℤ × ℚ) → ℕ → FitResult) (sqrtQ : ℚ → ℚ)
    (series : List (ℤ × ℤ)) (horizon : ℕ) : List ℚ × List ℚ × List ℚ × String :=
  if (sortedSeries series).length < 4 ∨ ((sortedSeries series).map Prod.snd).sum = 0 then
    (List.replicate horizon (meanQ ((sortedSeries series).map Prod.snd)),
     List.replicate horizon (meanQ ((sortedSeries series).map Prod.snd)),
     List.replicate horizon (meanQ ((sortedSeries series).map Prod.snd)), "naive-mean")
  else
    match fit (sortedSeries series) horizon with
    | .ok fc fitted =>
        let vals := (sortedSeries series).map Prod.snd
        let resid := List.zipWith (fun a b => a - b) vals fitted
        let sd := if 1 < resid.length then sqrtQ (sampleVar resid)
                  else if 0 < meanQ vals then (15 : ℚ)/100 * meanQ vals else 1
        (fc, fc.map (fun x => x - (196 : ℚ)/100 * sd), fc.map (fun x => x + (196 : ℚ)/100 * sd),
         "holt-winters-additive")
    | .err e =>
        (List.replicate horizon (meanQ ((sortedSeries series).map Prod.snd)),
         List.replicate horizon (meanQ ((sortedSeries series).map Prod.snd)),
         List.replicate horizon (meanQ ((sortedSeries series).map Prod.snd)),
         "fallback-mean (" ++ e ++ ")")

theorem insertByYear_length (p : ℤ × ℚ) (l : List (ℤ × ℚ)) :
    (insertByYear p l).length = l.length + 1 := by
  induction l with
  | nil => rfl
  | cons q qs ih =>
    unfold insertByYear
    split
    · simp [ih]
    · simp

theorem sortByYear_length (l : List (ℤ × ℚ)) : (sortByYear l).length = l.length := by
  induction l with
  | nil => rfl
  | cons p ps ih => simp [sortByYear, insertByYear_length, ih]

theorem insertByYear_sumSnd (p : ℤ × ℚ) (l : List (ℤ × ℚ)) :
    ((insertByYear p l).map Prod.snd).sum = p.2 + (l.map Prod.snd).sum := by
  induction l with
  | nil => simp [insertByYear]
  | cons q qs ih =>
    unfold insertByYear
    split
    · simp only [List.map_cons, List.sum_cons, ih]
      ring
    · simp [List.sum_cons]

theorem sortByYear_sumSnd (l : List (ℤ × ℚ)) :
    ((sortByYear l).map Prod.snd).sum = (l.map Prod.snd).sum := by
  induction l with
  | nil => rfl
  | cons p ps ih => simp [sortByYear, insertByYear_sumSnd, ih]

theorem sortedSeries_length (series : List (ℤ × ℤ)) :
    (sortedSeries series).length = series.length := by
  unfold sortedSeries
  rw [sortByYear_length, List.length_map]

theorem sortedSeries_sumSnd (series : List (ℤ × ℤ)) :
    ((sortedSeries series).map Prod.snd).sum = (series.map (fun p => (p.2 : ℚ))).sum := by
  unfold sortedSeries
  rw [sortByYear_sumSnd, List.map_map]
  rfl

theorem sortedSeries_meanSnd (series : List (ℤ × ℤ)) :
    meanQ ((sortedSeries series).map Prod.snd) = seriesMean series := by
  unfold meanQ seriesMean
  rw [sortedSeries_sumSnd, List.length_map, sortedSeries_length]

/-- C3: a series with fewer than 4 points or an all-zero sum takes the
Insufficient path (lines 123-125): the result is the series mean repeated
`horizon` times in all three slots, tag `naive-mean`; an all-zero series thus
forecasts all zeros. -/
theorem fit_and_forecast_naive (fit : List (ℤ × ℚ) → ℕ → FitResult) (sqrtQ : ℚ → ℚ)
    (series : List (ℤ × ℤ)) (horizon : ℕ)
    (hcond : series.length < 4 ∨ (series.map (fun p => (p.2 : ℚ))).sum = 0) :
    fit_and_forecast fit sqrtQ series horizon =
      (List.replicate horizon (seriesMean series), List.replicate horizon (seriesMean series),
       List.replicate horizon (seriesMean series), "naive-mean") ∧
      ((∀ p ∈ series, p.2 = 0) → seriesMean series = 0) := by
  constructor
  · unfold fit_and_forecast
    rw [if_pos, sortedSeries_meanSnd]
    rw [sortedSeries_length, sortedSeries_sumSnd]
    exact hcond
  · intro hz
    unfold seriesMean
    have : (series.map (fun p => (p.2 : ℚ))).sum = 0 := by
      apply List.sum_eq_zero
      intro x hx
      simp only [List.mem_map] at hx
      obtain ⟨p, hp, rfl⟩ := hx
      rw [hz p hp]
      norm_num
    rw [this]
    simp

/-- C3 witness: a two-point series (fewer than 4 points), horizon 2. -/
theorem fit_and_forecast_naive_witness :
    (([(2019, 1), (2020, 2)] : List (ℤ × ℤ)).length < 4 ∨
        (([(2019, 1), (2020, 2)] : List (ℤ × ℤ)).map (fun p => (p.2 : ℚ))).sum = 0) ∧
      (fit_and_forecast (fun _ _ => FitResult.err "x") (fun q => q) [(2019, 1), (2020, 2)] 2 =
        (List.replicate 2 (seriesMean [(2019, 1), (2020, 2)]),
         List.replicate 2 (seriesMean [(2019, 1), (2020, 2)]),
         List.replicate 2 (seriesMean [(2019, 1), (2020, 2)]), "naive-mean") ∧
        ((∀ p ∈ ([(2019, 1), (2020, 2)] : List (ℤ × ℤ)), p.2 = 0) →
          seriesMean [(2019, 1), (2020, 2)] = 0)) :=
  ⟨Or.inl (by decide),
   fit_and_forecast_naive (fun _ _ => FitResult.err "x") (fun q => q)
     [(2019, 1), (2020, 2)] 2 (Or.inl (by decide))⟩

/-- C4: in the Fit state (at least 4 points, non-zero sum), a fit error `e`
is caught (lines 138-141) and the result is the series mean repeated
`horizon` times with a zero-width band and tag `fallback-mean (e)`; the
function is total, so no exception reaches the caller. -/
theorem fit_and_forecast_fallback (fit : List (ℤ × ℚ) → ℕ → FitResult) (sqrtQ : ℚ → ℚ)
    (series : List (ℤ × ℤ)) (horizon : ℕ)
    (hlen : 4 ≤ series.length) (hsum : (series.map (fun p => (p.2 : ℚ))).sum ≠ 0)
    (e : String) (hfit : fit (sortedSeries series) horizon = FitResult.err e) :
    fit_and_forecast fit sqrtQ series horizon =
      (List.replicate horizon (seriesMean series), List.replicate horizon (seriesMean series),
       List.replicate horizon (seriesMean series), "fallback-mean (" ++ e ++ ")") := by
  unfold fit_and_forecast
  rw [if_neg, hfit, sortedSeries_meanSnd]
  rw [sortedSeries_length, sortedSeries_sumSnd]
  push_neg
  exact ⟨by omega, hsum⟩

/-- C4 witness: a four-point series with non-zero sum and a fit that raises. -/
theorem fit_and_forecast_fallback_witness :
    (4 ≤ ([(2019, 100), (2020, 120), (2021, 140), (2022, 160)] : List (ℤ × ℤ)).length ∧
        (([(2019, 100), (2020, 120), (2021, 140), (2022, 160)] : List (ℤ × ℤ)).map
            (fun p => (p.2 : ℚ))).sum ≠ 0 ∧
        (fun (_ : List (ℤ × ℚ)) (_ : ℕ) => FitResult.err "LinAlgError")
            (sortedSeries [(2019, 100), (2020, 120), (2021, 140), (2022, 160)]) 3 =
          FitResult.err "LinAlgError") ∧
      fit_and_forecast (fun _ _ => FitResult.err "LinAlgError") (fun q => q)
          [(2019, 100), (2020, 120), (2021, 140), (2022, 160)] 3 =
        (List.replicate 3 (seriesMean [(2019, 100), (2020, 120), (2021, 140), (2022, 160)]),
         List.replicate 3 (seriesMean [(2019, 100), (2020, 120), (2021, 140), (2022, 160)]),
         List.replicate 3 (seriesMean [(2019, 100), (2020, 120), (2021, 140), (2022, 160)]),
         "fallback-mean (LinAlgError)") :=
  ⟨⟨by decide, by norm_num, rfl⟩,
   fit_and_forecast_fallback (fun _ _ => FitResult.err "LinAlgError") (fun q => q)
     [(2019, 100), (2020, 120), (2021, 140), (2022, 160)] 3 (by decide) (by norm_num)
     "LinAlgError" rfl⟩

/-- C7: for any horizon ≥ 1, `fit_and_forecast` returns exactly `horizon`
points, lower bounds and upper bounds, in all three states (naive mean,
successful fit — whose external contract yields `horizon` forecast values —
and fallback); over the rational embedding every returned value is a
well-defined finite rational. -/
theorem fit_and_forecast_lengths (fit : List (ℤ × ℚ) → ℕ → FitResult) (sqrtQ : ℚ → ℚ)
    (series : List (ℤ × ℤ)) (horizon : ℕ) (hh : 1 ≤ horizon)
    (hfit : ∀ fc fitted, fit (sortedSeries series) horizon = FitResult.ok fc fitted →
      fc.length = horizon) :
    (fit_and_forecast fit sqrtQ series horizon).1.length = horizon ∧
      (fit_and_forecast fit sqrtQ series horizon).2.1.length = horizon ∧
      (fit_and_forecast fit sqrtQ series horizon).2.2.1.length = horizon := by
  unfold fit_and_forecast
  split
  · simp
  · split
    · next fc fitted heq =>
      have hl := hfit fc fitted heq
      simp [hl]
    · simp

/-- C7 witness: horizon 3 with a fit honouring the length contract. -/
theorem fit_and_forecast_lengths_witness :
    (1 ≤ 3 ∧
        (∀ fc fitted,
          (fun (_ : List (ℤ × ℚ)) (h : ℕ) => FitResult.ok (List.replicate h (5 : ℚ)) [])
              (sortedSeries [(2019, 100), (2020, 120), (2021, 140), (2022, 160)]) 3 =
            FitResult.ok fc fitted → fc.length = 3)) ∧
      (fit_and_forecast (fun _ h => FitResult.ok (List.replicate h (5 : ℚ)) []) (fun q => q)
            [(2019, 100), (2020, 120), (2021, 140), (2022, 160)] 3).1.length = 3 ∧
        (fit_and_forecast (fun _ h => FitResult.ok (List.replicate h (5 : ℚ)) []) (fun q => q)
            [(2019, 100), (2020, 120), (2021, 140), (2022, 160)] 3).2.1.length = 3 ∧
        (fit_and_forecast (fun _ h => FitResult.ok (List.replicate h (5 : ℚ)) []) (fun q => q)
            [(2019, 100), (2020, 120), (2021, 140), (2022, 160)] 3).2.2.1.length = 3 :=
  ⟨⟨by omega, by intro fc fitted h; cases h; rfl⟩,
   fit_and_forecast_lengths (fun _ h => FitResult.ok (List.replicate h (5 : ℚ)) []) (fun q => q)
     [(2019, 100), (2020, 120), (2021, 140), (2022, 160)] 3 (by omega)
     (by intro fc fitted h; cases h; rfl)⟩

/-- A row of the `disease_cases_yearly` store (schema of lines 34-42). -/
structure SeriesRow where
  disease : String
  year : ℤ
  cases : ℤ
  source : String
deriving DecidableEq

/-- A `(disease, cases)` pair of the `kenya_outbreaks_2007_2022` aggregate
table, as read on line 73. -/
structure TotalRow where
  disease : String
  cases : ℕ
deriving DecidableEq

/-- Stable insertion step of the sort modelling `ORDER BY cases DESC`. -/
def insertByCasesDesc (t : TotalRow) : List TotalRow → List TotalRow
  | [] => [t]
  | u :: us => if t.cases ≤ u.cases then u :: insertByCasesDesc t us else t :: u :: us

/-- `ORDER BY cases DESC` (line 73): entities in descending order of
aggregate total. -/
def sortByCasesDesc : List TotalRow → List TotalRow
  | [] => []
  | t :: ts => insertByCasesDesc t (sortByCasesDesc ts)

/-- The per-entity loop of lines 78-98 over entities already in generation
order, threading the single noise generator: the entity at position `k`
consumes draws `k * years.length` up to `(k+1) * years.length - 1`. -/
def genSeriesFrom (z : ℕ → ℚ) (years : List ℤ) (k : ℕ) :
    List TotalRow → List (String × List ℤ)
  | [] => []
  | t :: ts =>
      (t.disease, synthesizeOne (fun i => z (k * years.length + i)) t.cases years) ::
        genSeriesFrom z years (k + 1) ts

/-- The synthetic series per entity, in generation order. -/
def entitySeries (z : ℕ → ℚ) (years : List ℤ) (totals : List TotalRow) :
    List (String × List ℤ) :=
  genSeriesFrom z years 0 (sortByCasesDesc totals)

/-- The rows accumulated on lines 97-98 and inserted on lines 100-104, all
tagged `synthetic`. -/
def syntheticRows (z : ℕ → ℚ) (years : List ℤ) (totals : List TotalRow) : List SeriesRow :=
  (entitySeries z years totals).flatMap
    (fun ds => (years.zip ds.2).map (fun yc => ⟨ds.1, yc.1, yc.2, "synthetic"⟩))

/-- `build_synthetic_if_empty` (lines 61-105) acting on the series store: if
any rows exist (`COUNT(*) > 0`), skip synthesis and leave the store as it is;
otherwise insert the synthetic rows (the store being empty, the
`ON CONFLICT DO NOTHING` insert is a plain append). -/
def build_synthetic_if_empty (z : ℕ → ℚ) (years : List ℤ) (totals : List TotalRow)
    (store : List SeriesRow) : List SeriesRow :=
  if 0 < store.length then store else store ++ syntheticRows z years totals

/-- C8: a store with at least one row (real or synthetic) is returned
untouched, and the synthesis step is idempotent: a second run never changes
the store. -/
theorem build_synthetic_if_empty_idem (z : ℕ → ℚ) (years : List ℤ)
    (totals : List TotalRow) (store : List SeriesRow) :
    (store ≠ [] → build_synthetic_if_empty z years totals store = store) ∧
      build_synthetic_if_empty z years totals (build_synthetic_if_empty z years totals store) =
        build_synthetic_if_empty z years totals store := by
  constructor
  · intro h
    unfold build_synthetic_if_empty
    rw [if_pos]
    cases store with
    | nil => exact absurd rfl h
    | cons a s => simp
  · cases store with
    | cons a s => simp [build_synthetic_if_empty]
    | nil =>
      cases hr : syntheticRows z years totals with
      | nil => simp [build_synthetic_if_empty, hr]
      | cons r rs => simp [build_synthetic_if_empty, hr]

/-- C8 witness: a one-row store is left unchanged. -/
theorem build_synthetic_if_empty_idem_witness :
    ([⟨"Cholera", 2007, 5, "real"⟩] : List SeriesRow) ≠ [] ∧
      build_synthetic_if_empty (fun _ => 0) YEARS [⟨"Malaria", 100⟩]
          [⟨"Cholera", 2007, 5, "real"⟩] = [⟨"Cholera", 2007, 5, "real"⟩] :=
  ⟨by decide,
   (build_synthetic_if_empty_idem (fun _ => 0) YEARS [⟨"Malaria", 100⟩]
       [⟨"Cholera", 2007, 5, "real"⟩]).1 (by decide)⟩

/-- The batch provenance computed by `fetch_timeseries` (line 117):
`'real' if (df['source'] != 'synthetic').any() else 'synthetic'`. -/
def dataSource (store : List SeriesRow) : String :=
  if store.any (fun r => r.source != "synthetic") then "real" else "synthetic"

/-- The distinct diseases of the store, in first-appearance order (the keys
of the `groupby('disease')` of line 115). -/
def diseasesOf (store : List SeriesRow) : List String :=
  (store.map (fun r => r.disease)).dedup

/-- One disease's `(year, cases)` series as grouped by `fetch_timeseries`. -/
def seriesFor (store : List SeriesRow) (d : String) : List (ℤ × ℤ) :=
  (store.filter (fun r => r.disease == d)).map (fun r => (r.year, r.cases))

/-- A row of `disease_forecasts` as assembled in `main` (lines 174-179). -/
structure ForecastRow where
  disease : String
  year : ℤ
  forecast_cases : ℚ
  lower_ci : ℚ
  upper_ci : ℚ
  method : String
  data_source : String
deriving DecidableEq

/-- `int(df['year'].max())`: the last observed year of a series (pandas max;
the `0` default is never reached on the non-empty series produced by
`groupby`). -/
def lastObservedYear : List (ℤ × ℤ) → ℤ
  | [] => 0
  | p :: ps => ps.foldl (fun m q => max m q.1) p.1

/-- `range(start_year, start_year + FORECAST_HORIZON)` with
`start_year = last_observed_year + 1` (lines 173-174). -/
def forecastYears (series : List (ℤ × ℤ)) (horizon : ℕ) : List ℤ :=
  (List.range horizon).map (fun i : ℕ => lastObservedYear series + 1 + (i : ℤ))

/-- The forecast rows built by the loop of lines 170-179: per disease, one
row per forecast year, all carrying the single batch provenance tag. -/
def mainRows (fit : List (ℤ × ℚ) → ℕ → FitResult) (sqrtQ : ℚ → ℚ)
    (store : List SeriesRow) (horizon : ℕ) : List ForecastRow :=
  (diseasesOf store).flatMap (fun d =>
    (List.range horizon).map (fun i : ℕ =>
      { disease := d
        year := lastObservedYear (seriesFor store d) + 1 + (i : ℤ)
        forecast_cases := (fit_and_forecast fit sqrtQ (seriesFor store d) horizon).1.getD i 0
        lower_ci := (fit_and_forecast fit sqrtQ (seriesFor store d) horizon).2.1.getD i 0
        upper_ci := (fit_and_forecast fit sqrtQ (seriesFor store d) horizon).2.2.1.getD i 0
        method := (fit_and_forecast fit sqrtQ (seriesFor store d) horizon).2.2.2
        data_source := dataSource store }))

theorem foldlMax_le_init (l : List (ℤ × ℤ)) (a : ℤ) :
    a ≤ l.foldl (fun m q => max m q.1) a := by
  induction l generalizing a with
  | nil => exact le_refl a
  | cons q t ih => exact le_trans (le_max_left a q.1) (ih (max a q.1))

theorem foldlMax_mem_le (l : List (ℤ × ℤ)) (a : ℤ) :
    ∀ p ∈ l, p.1 ≤ l.foldl (fun m q => max m q.1) a := by
  induction l generalizing a with
  | nil => intro p hp; cases hp
  | cons q t ih =>
    intro p hp
    rcases List.mem_cons.mp hp with rfl | hm
    · exact le_trans (le_max_right a p.1) (foldlMax_le_init t (max a p.1))
    · exact ih (max a q.1) p hm

theorem foldlMax_attained (l : List (ℤ × ℤ)) (a : ℤ) :
    l.foldl (fun m q => max m q.1) a = a ∨
      ∃ p ∈ l, l.foldl (fun m q => max m q.1) a = p.1 := by
  induction l generalizing a with
  | nil => exact Or.inl rfl
  | cons q t ih =>
    rcases ih (max a q.1) with h | ⟨p, hp, h⟩
    · rcases le_total q.1 a with hle | hle
      · left
        simpa [max_eq_left hle] using h
      · right
        exact ⟨q, List.mem_cons_self q t, by simpa [max_eq_right hle] using h⟩
    · right
      exact ⟨p, List.mem_cons_of_mem q hp, h⟩

/-- C6: the emitted forecast years for a series are exactly the `horizon`
consecutive years following the last observed year: `lastObservedYear` bounds
every year of the series and is attained by one of them, and membership in
`forecastYears` is exactly the interval `last+1 .. last+horizon`, with
exactly `horizon` years emitted (`3` at the default horizon). -/
theorem forecastYears_spec (series : List (ℤ × ℤ)) (horizon : ℕ) (hne : series ≠ []) :
    (∀ p ∈ series, p.1 ≤ lastObservedYear series) ∧
      (∃ p ∈ series, p.1 = lastObservedYear series) ∧
      (∀ y : ℤ, y ∈ forecastYears series horizon ↔
        lastObservedYear series + 1 ≤ y ∧ y ≤ lastObservedYear series + horizon) ∧
      (forecastYears series horizon).length = horizon := by
  refine ⟨?_, ?_, ?_, ?_⟩
  · intro p hp
    cases series with
    | nil => exact absurd rfl hne
    | cons q t =>
      rcases List.mem_cons.mp hp with rfl | hm
      · exact foldlMax_le_init t p.1
      · exact foldlMax_mem_le t q.1 p hm
  · cases series with
    | nil => exact absurd rfl hne
    | cons q t =>
      rcases foldlMax_attained t q.1 with h | ⟨p, hp, h⟩
      · exact ⟨q, List.mem_cons_self q t, h.symm⟩
      · exact ⟨p, List.mem_cons_of_mem q hp, h.symm⟩
  · intro y
    unfold forecastYears
    simp only [List.mem_map, List.mem_range]
    constructor
    · rintro ⟨i, hi, rfl⟩
      omega
    · rintro ⟨h1, h2⟩
      refine ⟨(y - (lastObservedYear series + 1)).toNat, by omega, by omega⟩
  · unfold forecastYears
    rw [List.length_map, List.length_range]

/-- C6 witness: a two-point series ending in 2020, horizon 3 — the forecast
years are 2021, 2022, 2023. -/
theorem forecastYears_spec_witness :
    ([((2019 : ℤ), (100 : ℤ)), (2020, 120)] ≠ ([] : List (ℤ × ℤ))) ∧
      (∀ y : ℤ, y ∈ forecastYears [((2019 : ℤ), (100 : ℤ)), (2020, 120)] 3 ↔
        lastObservedYear [((2019 : ℤ), (100 : ℤ)), (2020, 120)] + 1 ≤ y ∧
          y ≤ lastObservedYear [((2019 : ℤ), (100 : ℤ)), (2020, 120)] + 3) :=
  ⟨by decide,
   (forecastYears_spec [((2019 : ℤ), (100 : ℤ)), (2020, 120)] 3 (by decide)).2.2.1⟩

/-- C9: the provenance tag of a run is `real` exactly when some store row has
a non-synthetic source, and every forecast row of the run carries that same
single batch-level tag. -/
theorem dataSource_spec (fit : List (ℤ × ℚ) → ℕ → FitResult) (sqrtQ : ℚ → ℚ)
    (store : List SeriesRow) (horizon : ℕ) :
    (dataSource store = "real" ↔ ∃ r ∈ store, r.source ≠ "synthetic") ∧
      ∀ row ∈ mainRows fit sqrtQ store horizon, row.data_source = dataSource store := by
  constructor
  · unfold dataSource
    split
    · next h =>
      simp only [List.any_eq_true, bne_iff_ne] at h
      exact ⟨fun _ => h, fun _ => rfl⟩
    · next h =>
      simp only [List.any_eq_true, bne_iff_ne] at h
      push_neg at h
      constructor
      · intro habs
        exact absurd habs (by decide)
      · rintro ⟨r, hr, hne⟩
        exact absurd (h r hr) hne
  · intro row hrow
    simp only [mainRows, List.mem_flatMap, List.mem_map] at hrow
    obtain ⟨d, _, i, _, rfl⟩ := hrow
    rfl

/-- C9 witness: a store holding one `real` row yields tag `real`, and the
single forecast row of a one-year horizon carries it. -/
theorem dataSource_spec_witness :
    dataSource [⟨"Cholera", 2007, 5, "real"⟩] = "real" :=
  (dataSource_spec (fun _ _ => FitResult.err "x") (fun q => q)
      [⟨"Cholera", 2007, 5, "real"⟩] 1).1.mpr
    ⟨⟨"Cholera", 2007, 5, "real"⟩, by decide, by decide⟩

/-- A noise stream whose draws differ strongly between the first and second
16-draw blocks, used to exhibit the positional coupling of the shared
generator (the batch below uses two-year ranges, so blocks of two draws). -/
def zStep : ℕ → ℚ := fun n => [(0 : ℚ), 10, 30, 0].getD n 0

/-- Batch in which entity A's aggregate (1000) exceeds B's (5). -/
def batchHigh : List TotalRow := [⟨"A", 1000⟩, ⟨"B", 5⟩]

/-- Batch identical for B but with A's aggregate lowered to 1. -/
def batchLow : List TotalRow := [⟨"A", 1⟩, ⟨"B", 5⟩]

theorem genSeriesFrom_getElem? (z : ℕ → ℚ) (years : List ℤ) (l : List TotalRow) (j k : ℕ) :
    (genSeriesFrom z years j l)[k]? =
      (l[k]?).map (fun t =>
        (t.disease, synthesizeOne (fun i => z ((j + k) * years.length + i)) t.cases years)) := by
  induction l generalizing j k with
  | nil => simp [genSeriesFrom]
  | cons t ts ih =>
    cases k with
    | zero => simp [genSeriesFrom]
    | succ k =>
      simp only [genSeriesFrom, List.getElem?_cons_succ]
      rw [ih (j + 1) k]
      have h : j + 1 + k = j + (k + 1) := by omega
      rw [h]

/-- C10: synthesis shares one noise generator across the batch iterated in
descending order of totals.  (a) The series emitted at position `k` of the
generation order is a function of `k` and the entities at positions 0..k (in
fact of `k` and the entity at `k` alone, the stronger statement proved here
via agreement of the order prefix); (b) concretely, entity B with identical
(name, total, years) in two batches receives different series when A's total
changes from 1000 to 1, because the changed ordering shifts B's position and
hence the noise draws it consumes. -/
theorem batch_positional_coupling :
    (∀ (z : ℕ → ℚ) (years : List ℤ) (l1 l2 : List TotalRow) (k : ℕ),
        l1.take (k + 1) = l2.take (k + 1) →
        (genSeriesFrom z years 0 l1)[k]? = (genSeriesFrom z years 0 l2)[k]?) ∧
      List.lookup "B" (entitySeries zStep [2007, 2008] batchHigh) ≠
        List.lookup "B" (entitySeries zStep [2007, 2008] batchLow) := by
  constructor
  · intro z years l1 l2 k htake
    have h1 : l1[k]? = l2[k]? := by
      have e1 : (l1.take (k + 1))[k]? = l1[k]? := List.getElem?_take_of_lt (Nat.lt_succ_self k)
      have e2 : (l2.take (k + 1))[k]? = l2[k]? := List.getElem?_take_of_lt (Nat.lt_succ_self k)
      rw [← e1, ← e2, htake]
    rw [genSeriesFrom_getElem?, genSeriesFrom_getElem?, h1]
  · norm_num [entitySeries, genSeriesFrom, sortByCasesDesc, insertByCasesDesc, batchHigh,
      batchLow, synthesizeOne, scaledInts, provisionalVals, scaleOf, baseOf, slopeOf, zStep,
      roundHalfEven, addToLast, List.range_succ, List.lookup]
    norm_num [Int.fract]
    decide

/-- C10 witness: two generation orders agreeing at position 0 but not beyond
give the same first series. -/
theorem batch_positional_coupling_witness :
    (([⟨"A", 2⟩, ⟨"C", 9⟩] : List TotalRow).take 1 =
        ([⟨"A", 2⟩, ⟨"D", 7⟩] : List TotalRow).take 1) ∧
      (genSeriesFrom zStep [2007, 2008] 0 [⟨"A", 2⟩, ⟨"C", 9⟩])[0]? =
        (genSeriesFrom zStep [2007, 2008] 0 [⟨"A", 2⟩, ⟨"D", 7⟩])[0]? :=
  ⟨by decide,
   batch_positional_coupling.1 zStep [2007, 2008] [⟨"A", 2⟩, ⟨"C", 9⟩]
     [⟨"A", 2⟩, ⟨"D", 7⟩] 0 (by decide)⟩
